import Mathlib

set_option maxRecDepth 40000

/-!
Verification development for the MiSub subscription request handler
(`src/functions/modules/subscription-handler.js`, `handleMisubRequest`).

The handler is embedded as a pure Lean function over an explicit request,
storage snapshot (merged settings, subscription entries, profiles) and a
record of collaborator functions (node-list composition, byte formatting,
the process-derived callback token, and the current wall-clock time).
JavaScript-specific behaviour (truthiness, optional chaining, template
interpolation of `undefined`/`null`, `btoa(unescape(encodeURIComponent(s)))`)
is modelled explicitly by small helper functions.

Platform URL parsing (`new URL`) is treated as a transparent collaborator:
a request carries its `pathname` verbatim (the handler's own path
processing — stripping a leading `/sub/` segment, splitting on `/`,
dropping empty segments — is embedded faithfully) and its query
parameters as an ordered association list, where `get` returns the first
binding and `has` tests key presence, matching `URLSearchParams`.
-/

/-- JavaScript string truthiness for an optional string: `null`/`undefined`
and the empty string are falsy. -/
def jsFalsyOpt : Option String → Bool
  | none => true
  | some s => s = ""

/-- JavaScript template interpolation of a possibly-null string. -/
def jsTemplate : Option String → String
  | none => "null"
  | some s => s

/-- JavaScript string coercion of a possibly-undefined string, as performed by
`URLSearchParams.set` on an `undefined` value. -/
def jsStr : Option String → String
  | none => "undefined"
  | some s => s

/-- Whitespace characters removed by JavaScript `String.prototype.trim`
(ASCII whitespace plus the common Unicode space/line separators). -/
def isJsWhitespace (c : Char) : Bool :=
  c.toNat = 9 || c.toNat = 10 || c.toNat = 11 || c.toNat = 12 || c.toNat = 13 ||
  c.toNat = 32 || c.toNat = 160 || c.toNat = 0xFEFF || c.toNat = 0x2028 || c.toNat = 0x2029

/-- Model of JavaScript `String.prototype.trim`. -/
def jsTrim (s : String) : String :=
  String.mk (((s.data.dropWhile isJsWhitespace).reverse.dropWhile isJsWhitespace).reverse)

/-- Boolean list-prefix test (model of `String.prototype.startsWith` on the
underlying character lists). -/
def isPrefL : List Char → List Char → Bool
  | [], _ => true
  | _ :: _, [] => false
  | a :: as, b :: bs => a = b && isPrefL as bs

/-- Model of JavaScript `String.prototype.startsWith`. -/
def jsStartsWith (s pre₀ : String) : Bool :=
  isPrefL pre₀.data s.data

/-- Membership of a character list as a contiguous sublist (model of
`String.prototype.includes`). -/
def containsL (needle : List Char) : List Char → Bool
  | [] => isPrefL needle []
  | h :: t => isPrefL needle (h :: t) || containsL needle t

/-- Model of JavaScript `String.prototype.includes`. -/
def jsIncludes (hay needle : String) : Bool :=
  containsL needle.data hay.data

/-- ASCII lowering (model of `String.prototype.toLowerCase` restricted to
ASCII letters, which is all the keyword table requires). -/
def jsToLower (s : String) : String :=
  String.mk (s.data.map (fun c =>
    if 'A' ≤ c && c ≤ 'Z' then Char.ofNat (c.toNat + 32) else c))

/-- Splitting a character list on `'/'` (model of `split('/')`:
`"/a/b"` yields `["", "a", "b"]`, the empty string yields `[""]`). -/
def splitOnSlash : List Char → List (List Char)
  | [] => [[]]
  | c :: cs =>
    if c = '/' then [] :: splitOnSlash cs
    else
      match splitOnSlash cs with
      | [] => [[c]]
      | g :: gs => (c :: g) :: gs

/-- Model of `pathname.replace(/^\/sub\//, '/')`: a leading `/sub/` segment
is replaced by a single `/`. -/
def stripSubSeg (p : List Char) : List Char :=
  if isPrefL "/sub/".data p then '/' :: p.drop 5 else p

/-- The handler's path processing:
`url.pathname.replace(/^\/sub\//, '/').split('/').filter(Boolean)`. -/
def pathSegments (p : String) : List String :=
  ((splitOnSlash (stripSubSeg p.data)).map String.mk).filter (fun s => s ≠ "")

/-- First value bound to a key in an ordered query-parameter list
(model of `URLSearchParams.get`, `none` playing the role of `null`). -/
def getParam (ps : List (String × String)) (k : String) : Option String :=
  (ps.find? (fun p => p.1 = k)).map (fun p => p.2)

/-- Key-presence test on a query-parameter list (model of
`URLSearchParams.has`). -/
def hasParam (ps : List (String × String)) (k : String) : Bool :=
  ps.any (fun p => p.1 = k)

/-- UTF-8 encoding of a single Unicode code point. -/
def utf8EncodeChar (c : Nat) : List Nat :=
  if c < 0x80 then [c]
  else if c < 0x800 then [0xC0 + c / 64, 0x80 + c % 64]
  else if c < 0x10000 then [0xE0 + c / 4096, 0x80 + c / 64 % 64, 0x80 + c % 64]
  else [0xF0 + c / 262144, 0x80 + c / 4096 % 64, 0x80 + c / 64 % 64, 0x80 + c % 64]

/-- UTF-8 byte sequence of a string (the byte string produced by
`unescape(encodeURIComponent(s))`). -/
def utf8Bytes (s : String) : List Nat :=
  s.data.foldr (fun c acc => utf8EncodeChar c.toNat ++ acc) []

/-- The standard base64 alphabet. -/
def b64Alphabet : List Char :=
  "ABCDEFGHIJKLMNOPQRSTUVWXYZabcdefghijklmnopqrstuvwxyz0123456789+/".data

/-- Character at a 6-bit index of the base64 alphabet. -/
def b64Char (n : Nat) : Char :=
  b64Alphabet.getD n 'A'

/-- Base64 encoding of a byte list (model of `btoa` applied to a Latin-1
byte string). -/
def btoaBytes : List Nat → String
  | [] => ""
  | [x] => String.mk [b64Char (x / 4), b64Char (x % 4 * 16), '=', '=']
  | [x, y] => String.mk [b64Char (x / 4), b64Char (x % 4 * 16 + y / 16), b64Char (y % 16 * 4), '=']
  | x :: y :: z :: rest =>
    String.mk [b64Char (x / 4), b64Char (x % 4 * 16 + y / 16),
               b64Char (y % 16 * 4 + z / 64), b64Char (z % 64)] ++ btoaBytes rest

/-- Index of a character in a character list. -/
def idxOfChar (c : Char) : List Char → Option Nat
  | [] => none
  | x :: xs => if x = c then some 0 else (idxOfChar c xs).map (fun n => n + 1)

/-- 6-bit value of a base64 alphabet character. -/
def b64Val (c : Char) : Option Nat :=
  idxOfChar c b64Alphabet

/-- Base64 decoding of a character list (groups of four, `=`-padded). -/
def decodeB64Chars : List Char → Option (List Nat)
  | [] => some []
  | [a, b, '=', '='] =>
    match b64Val a, b64Val b with
    | some va, some vb => some [va * 4 + vb / 16]
    | _, _ => none
  | [a, b, c, '='] =>
    match b64Val a, b64Val b, b64Val c with
    | some va, some vb, some vc => some [va * 4 + vb / 16, vb % 16 * 16 + vc / 4]
    | _, _, _ => none
  | a :: b :: c :: d :: rest =>
    match b64Val a, b64Val b, b64Val c, b64Val d, decodeB64Chars rest with
    | some va, some vb, some vc, some vd, some bs =>
      some ([va * 4 + vb / 16, vb % 16 * 16 + vc / 4, vc % 4 * 64 + vd] ++ bs)
    | _, _, _, _, _ => none
  | _ => none

/-- Base64 decoding of a string. -/
def decodeB64 (s : String) : Option (List Nat) :=
  decodeB64Chars s.data

/-- The handler's text-to-base64 pipeline
`btoa(unescape(encodeURIComponent(s)))`. -/
def jsBtoaUtf8 (s : String) : String :=
  btoaBytes (utf8Bytes s)

/-- Hexadecimal digit character (upper case). -/
def hexDigit (n : Nat) : Char :=
  "0123456789ABCDEF".data.getD n '0'

/-- Characters left unescaped by JavaScript `encodeURIComponent`. -/
def isUnreservedURIChar (c : Char) : Bool :=
  ('A' ≤ c && c ≤ 'Z') || ('a' ≤ c && c ≤ 'z') || ('0' ≤ c && c ≤ '9') ||
  c = '-' || c = '_' || c = '.' || c = '!' || c = '~' || c = '*' || c = '\'' ||
  c = '(' || c = ')'

/-- Percent-encoding of a single byte. -/
def pctByte (b : Nat) : List Char :=
  ['%', hexDigit (b / 16), hexDigit (b % 16)]

/-- Model of JavaScript `encodeURIComponent`. -/
def encodeURIComponentJS (s : String) : String :=
  String.mk (s.data.foldr
    (fun c acc =>
      (if isUnreservedURIChar c then [c]
       else (utf8EncodeChar c.toNat).foldr (fun b a => pctByte b ++ a) []) ++ acc)
    [])

/-! ## Data model -/

/-- Per-subscription traffic counters (`userInfo`), with `upload`/`download`
possibly absent (defaulted to `0` by `|| 0` in the source). -/
structure UserInfo where
  upload : Option Int
  download : Option Int
  total : Int
deriving DecidableEq

/-- One stored subscription entry or manual node. `isExpiredNode` is absent
(false) on stored entries and set only on the synthetic expired placeholders. -/
structure MisubEntry where
  id : String
  url : String
  name : String
  enabled : Bool
  userInfo : Option UserInfo
  isExpiredNode : Bool
deriving DecidableEq

/-- A stored profile. `expiresAt` is the parsed timestamp of the stored
expiry date (absent when the profile never expires); `pfxSettings` models the
opaque `prefixSettings` payload handed to the node-composition collaborator. -/
structure Profile where
  id : String
  customId : Option String
  name : String
  enabled : Bool
  expiresAt : Option Int
  subscriptions : List String
  manualNodes : List String
  subConverter : Option String
  subConfig : Option String
  pfxSettings : Option String
deriving DecidableEq

/-- The merged settings object
(`migrateConfigSettings({...defaultSettings, ...settings})`), an input to
the handler. `subConverter`/`subConfig` may be absent or blank. -/
structure Config where
  mytoken : String
  profileToken : String
  subConverter : Option String
  subConfig : Option String
  FileName : String
deriving DecidableEq

/-- Collaborator functions and ambient values used by the handler:
the node-composition black box (`generateCombinedNodeList`), the byte
formatter, the process-derived callback token and the current time. -/
structure Collab where
  compose : Config → String → List MisubEntry → String → Option String → String
  formatBytes : Int → String
  callbackToken : String
  now : Int

/-- An inbound HTTP request as seen by the handler. -/
structure Request where
  protocol : String
  host : String
  pathname : String
  params : List (String × String)
  userAgent : Option String
deriving DecidableEq

/-- An HTTP response determined by the handler itself. -/
structure HttpResponse where
  status : Nat
  body : String
  headers : List (String × String)
deriving DecidableEq

/-- Which `return` statement of the handler produced the outcome. -/
inductive Branch where
  | forbiddenProfile
  | notFoundProfile
  | forbiddenDirect
  | unconfigured
  | base64Resp
  | shortCircuit
  | converter
deriving DecidableEq

/-- An early-return response together with its branch tag. -/
structure EarlyResp where
  branch : Branch
  status : Nat
  body : String
deriving DecidableEq

/-- The request context assembled by the authorization/selection section of
the handler (lines 69–135 of the source). -/
structure AuthCtx where
  targetMisubs : List MisubEntry
  subName : String
  effectiveSubConverter : Option String
  effectiveSubConfig : Option String
  isProfileExpired : Bool
deriving DecidableEq

/-- The complete observable outcome of one handler invocation: the HTTP
response when it is determined locally (`none` when the handler would
forward the converter's upstream response), whether the access notification
was scheduled, and the intermediate values of the request context. -/
structure HandlerResult where
  branch : Branch
  response : Option HttpResponse
  notified : Bool
  targetMisubs : List MisubEntry
  subName : String
  targetFormat : String
  effectiveSubConverter : Option String
  effectiveSubConfig : Option String
  isProfileExpired : Bool
  prependedContent : String
  converterHost : Option String
  converterQuery : List (String × String)
deriving DecidableEq

/-! ## Constants from the source -/

/-- The fixed four-entry expired-placeholder SS URI list (`EXPIRED_NODES`). -/
def EXPIRED_NODES : List String :=
  ["ss://YWVzLTI1Ni1nY206MDAwMDAwMDAwMDAwMDAwMA==@127.0.0.1:443#🇨🇳 订阅会员已到期",
   "ss://YWVzLTI1Ni1nY206MDAwMDAwMDAwMDAwMDAwMA==@127.0.0.1:443#🇨🇳 订阅会员已到期",
   "ss://YWVzLTI1Ni1nY206MDAwMDAwMDAwMDAwMDAwMA==@127.0.0.1:443#🇨🇳 请联系客服续费",
   "ss://YWVzLTI1Ni1nY206MDAwMDAwMDAwMDAwMDAwMA==@127.0.0.1:443#🇨🇳 微信 EX3116"]

/-- The synthetic entry list substituted for an expired profile
(`EXPIRED_NODES.map((node, index) => ({...}))`); the objects carry no
`enabled` or `userInfo` fields. -/
def expiredNodeEntries : List MisubEntry :=
  EXPIRED_NODES.enum.map (fun p =>
    { id := "expired-node-" ++ toString p.1
      url := p.2
      name := "订阅已到期"
      enabled := false
      userInfo := none
      isExpiredNode := true })

/-- The ordered bare-flag format list (`supportedFormats`). -/
def SUPPORTED_FORMATS : List String :=
  ["clash", "singbox", "surge", "loon", "base64", "v2ray", "trojan"]

/-- The ordered User-Agent keyword table (`uaMapping`); first match wins. -/
def UA_MAPPING : List (String × String) :=
  [("flyclash", "clash"),
   ("mihomo", "clash"),
   ("clash.meta", "clash"),
   ("clash-verge", "clash"),
   ("meta", "clash"),
   ("stash", "clash"),
   ("nekoray", "clash"),
   ("sing-box", "singbox"),
   ("shadowrocket", "base64"),
   ("v2rayn", "base64"),
   ("v2rayng", "base64"),
   ("surge", "surge"),
   ("loon", "loon"),
   ("quantumult%20x", "quanx"),
   ("quantumult", "quanx"),
   ("clash", "clash")]

/-! ## Handler stages -/

/-- Token resolution: first path segment if any, else the `token` query
parameter (lines 50–61). -/
def tokenOf (req : Request) : Option String :=
  match pathSegments req.pathname with
  | [] => getParam req.params "token"
  | t :: _ => some t

/-- Profile-identifier resolution: second path segment if present
(lines 51–58). -/
def profileIdOf (req : Request) : Option String :=
  match pathSegments req.pathname with
  | [] => none
  | _ :: rest => rest.head?

/-- Profile lookup predicate
(`(p.customId && p.customId === profileIdentifier) || p.id === profileIdentifier`). -/
def profileMatches (pid : String) (p : Profile) : Bool :=
  (match p.customId with
   | some c => c ≠ "" && c = pid
   | none => false) || p.id = pid

/-- The per-request override resolution
`override?.trim() !== '' ? override : fallback`: a present non-blank
override — or an absent one, for which the optional chain yields
`undefined ≠ ''` — is used as-is; a present blank override falls back. -/
def jsOverride (override fallback : Option String) : Option String :=
  if override.map jsTrim ≠ some "" then override else fallback

/-- Blankness test of a resolved converter backend
(`!v || v.trim() === ''`). -/
def blankStrOpt : Option String → Bool
  | none => true
  | some s => s = "" || jsTrim s = ""

/-- Profile membership filter for an active profile (lines 109–118). -/
def selectProfileEntries (allMisubs : List MisubEntry) (profile : Profile) : List MisubEntry :=
  allMisubs.filter (fun item =>
    let isSubscription := jsStartsWith item.url "http"
    let belongsToProfile :=
      (isSubscription && profile.subscriptions.contains item.id) ||
      (!isSubscription && profile.manualNodes.contains item.id)
    item.enabled && belongsToProfile)

/-- Expiry computation (lines 81–87): an absent `expiresAt` is falsy;
a present one is expired when `now` is strictly greater. -/
def isExpiredAt (now : Int) : Option Int → Bool
  | none => false
  | some e => now > e

/-- The authorization / node-set selection section (lines 69–135), producing
either an early error response or the request context. -/
def authorizeSelect (config : Config) (allMisubs : List MisubEntry)
    (allProfiles : List Profile) (now : Int)
    (token profileIdentifier : Option String) : Except EarlyResp AuthCtx :=
  match profileIdentifier with
  | some pid =>
    if jsFalsyOpt token || token ≠ some config.profileToken then
      Except.error ⟨Branch.forbiddenProfile, 403, "Invalid Profile Token"⟩
    else
      match allProfiles.find? (fun p => profileMatches pid p) with
      | none => Except.error ⟨Branch.notFoundProfile, 404, "Profile not found or disabled"⟩
      | some profile =>
        if !profile.enabled then
          Except.error ⟨Branch.notFoundProfile, 404, "Profile not found or disabled"⟩
        else
          let isProfileExpired := isExpiredAt now profile.expiresAt
          let effSC := jsOverride profile.subConverter config.subConverter
          let effCfg := jsOverride profile.subConfig config.subConfig
          if isProfileExpired then
            Except.ok ⟨expiredNodeEntries, profile.name, effSC, effCfg, true⟩
          else
            Except.ok ⟨selectProfileEntries allMisubs profile, profile.name, effSC, effCfg, false⟩
  | none =>
    if jsFalsyOpt token || token ≠ some config.mytoken then
      Except.error ⟨Branch.forbiddenDirect, 403, "Invalid Token"⟩
    else
      Except.ok ⟨allMisubs.filter (fun s => s.enabled), config.FileName,
                 config.subConverter, config.subConfig, false⟩

/-- Stages 2–4 of format negotiation, reached when no non-falsy explicit
`target` is present: first present bare flag (with `v2ray`/`trojan`
normalised to `base64`), else first case-insensitive User-Agent keyword,
else `base64`. -/
def negotiateFromFlags (params : List (String × String)) (userAgentHeader : String) : String :=
  match SUPPORTED_FORMATS.find? (fun f => hasParam params f) with
  | some f => if f = "v2ray" || f = "trojan" then "base64" else f
  | none =>
    let ua := jsToLower userAgentHeader
    match UA_MAPPING.find? (fun kv => jsIncludes ua kv.1) with
    | some kv => kv.2
    | none => "base64"

/-- Output-format negotiation (lines 144–184): explicit non-falsy `target`,
else first present bare flag (with `v2ray`/`trojan` normalised to `base64`),
else first case-insensitive User-Agent keyword, else `base64`. -/
def negotiateTargetFormat (params : List (String × String)) (userAgentHeader : String) : String :=
  match getParam params "target" with
  | some t =>
    if t ≠ "" then t else negotiateFromFlags params userAgentHeader
  | none => negotiateFromFlags params userAgentHeader

/-- Remaining traffic contributed by one entry inside the `reduce`
(lines 219–226): `max(0, total - (upload + download))` when the entry is
enabled with a positive `userInfo.total`, else `0`. -/
def remainingOf (sub : MisubEntry) : Int :=
  match sub.userInfo with
  | some ui =>
    if sub.enabled && ui.total > 0 then
      max 0 (ui.total - (ui.upload.getD 0 + ui.download.getD 0))
    else 0
  | none => 0

/-- The aggregated remaining traffic (`totalRemainingBytes`). -/
def totalRemainingBytes (subs : List MisubEntry) : Int :=
  subs.foldl (fun acc sub => acc + remainingOf sub) 0

/-- The decorative traffic placeholder prepended when the aggregate is
positive (lines 228–233). -/
def mkPrepended (col : Collab) (subs : List MisubEntry) : String :=
  let t := totalRemainingBytes subs
  if t > 0 then
    "trojan://00000000-0000-0000-0000-000000000000@127.0.0.1:443#" ++
      encodeURIComponentJS ("流量剩余 ≫ " ++ col.formatBytes t)
  else ""

/-- The `prefixSettings` payload handed to the composition collaborator
(line 242): the matched profile's settings in profile mode, else null. -/
def pfxSettingsOf (allProfiles : List Profile) : Option String → Option String
  | some pid => (allProfiles.find? (fun p => profileMatches pid p)).bind (fun p => p.pfxSettings)
  | none => none

/-- The callback path `/${token}` or `/${token}/${profileIdentifier}`
(lines 283–285). -/
def callbackPathOf (token profileIdentifier : Option String) : String :=
  match profileIdentifier with
  | some pid => "/" ++ jsTemplate token ++ "/" ++ pid
  | none => "/" ++ jsTemplate token

/-- The full callback URL (line 286). -/
def mkCallbackUrl (protocol host : String) (token profileIdentifier : Option String)
    (callbackToken : String) : String :=
  protocol ++ "//" ++ host ++ callbackPathOf token profileIdentifier ++
    "?target=base64&callback_token=" ++ callbackToken

/-- The query parameters set on the outbound converter URL, in order
(lines 297–308): `target`, `url`, conditionally `config`, then `new_name`. -/
def mkConverterQuery (targetFormat callbackUrl : String) (effCfg : Option String) :
    List (String × String) :=
  [("target", targetFormat), ("url", callbackUrl)] ++
  (if (targetFormat = "clash" || targetFormat = "loon" || targetFormat = "surge") &&
      effCfg.map jsTrim ≠ some "" then
    [("config", jsStr effCfg)]
  else []) ++
  [("new_name", "true")]

/-- The plain-text no-store headers of locally produced bodies. -/
def plainHeaders : List (String × String) :=
  [("Content-Type", "text/plain; charset=utf-8"), ("Cache-Control", "no-store, no-cache")]

/-- Placeholder-text content encoded for an expired profile on the base64
path (line 259): the four SS URIs joined by newlines, trailing newline. -/
def expiredContent : String :=
  String.intercalate "\n" EXPIRED_NODES ++ "\n"

/-- Outcome of an early error return (before format negotiation):
no notification is scheduled and no context fields were assigned. -/
def errorResult (config : Config) (e : EarlyResp) : HandlerResult :=
  { branch := e.branch
    response := some ⟨e.status, e.body, []⟩
    notified := false
    targetMisubs := []
    subName := config.FileName
    targetFormat := ""
    effectiveSubConverter := none
    effectiveSubConfig := none
    isProfileExpired := false
    prependedContent := ""
    converterHost := none
    converterQuery := [] }

/-- Outcome of the blank-backend 500 return (lines 137–139): the context
was already assigned, but negotiation and notification never ran. -/
def unconfiguredResult (ctx : AuthCtx) : HandlerResult :=
  { branch := Branch.unconfigured
    response := some ⟨500, "Subconverter backend is not configured.", []⟩
    notified := false
    targetMisubs := ctx.targetMisubs
    subName := ctx.subName
    targetFormat := ""
    effectiveSubConverter := ctx.effectiveSubConverter
    effectiveSubConfig := ctx.effectiveSubConfig
    isProfileExpired := ctx.isProfileExpired
    prependedContent := ""
    converterHost := none
    converterQuery := [] }

/-- The post-authorization pipeline (lines 137–342): blank-backend check,
format negotiation, notification scheduling, traffic placeholder, node-list
composition, and the base64 / callback short-circuit / converter branches. -/
def handleAuthed (col : Collab) (config : Config) (allProfiles : List Profile)
    (token profileIdentifier : Option String) (params : List (String × String))
    (userAgentHeader protocol host : String) (ctx : AuthCtx) : HandlerResult :=
  if blankStrOpt ctx.effectiveSubConverter then
    unconfiguredResult ctx
  else
    let targetFormat := negotiateTargetFormat params userAgentHeader
    let notified := !hasParam params "callback_token"
    let prependedContent :=
      if ctx.isProfileExpired then "" else mkPrepended col ctx.targetMisubs
    let combinedNodeList :=
      col.compose config userAgentHeader ctx.targetMisubs prependedContent
        (pfxSettingsOf allProfiles profileIdentifier)
    if targetFormat = "base64" then
      let contentToEncode := if ctx.isProfileExpired then expiredContent else combinedNodeList
      { branch := Branch.base64Resp
        response := some ⟨200, jsBtoaUtf8 contentToEncode, plainHeaders⟩
        notified := notified
        targetMisubs := ctx.targetMisubs
        subName := ctx.subName
        targetFormat := targetFormat
        effectiveSubConverter := ctx.effectiveSubConverter
        effectiveSubConfig := ctx.effectiveSubConfig
        isProfileExpired := ctx.isProfileExpired
        prependedContent := prependedContent
        converterHost := none
        converterQuery := [] }
    else
      let base64Content := jsBtoaUtf8 combinedNodeList
      let callbackUrl := mkCallbackUrl protocol host token profileIdentifier col.callbackToken
      if getParam params "callback_token" = some col.callbackToken then
        { branch := Branch.shortCircuit
          response := some ⟨200, base64Content, plainHeaders⟩
          notified := notified
          targetMisubs := ctx.targetMisubs
          subName := ctx.subName
          targetFormat := targetFormat
          effectiveSubConverter := ctx.effectiveSubConverter
          effectiveSubConfig := ctx.effectiveSubConfig
          isProfileExpired := ctx.isProfileExpired
          prependedContent := prependedContent
          converterHost := none
          converterQuery := [] }
      else
        { branch := Branch.converter
          response := none
          notified := notified
          targetMisubs := ctx.targetMisubs
          subName := ctx.subName
          targetFormat := targetFormat
          effectiveSubConverter := ctx.effectiveSubConverter
          effectiveSubConfig := ctx.effectiveSubConfig
          isProfileExpired := ctx.isProfileExpired
          prependedContent := prependedContent
          converterHost := ctx.effectiveSubConverter
          converterQuery := mkConverterQuery targetFormat callbackUrl ctx.effectiveSubConfig }

/-- The full handler `handleMisubRequest`, as a pure function of the
collaborators, the storage snapshot and the request. -/
def handleMisubRequest (col : Collab) (config : Config) (allMisubs : List MisubEntry)
    (allProfiles : List Profile) (req : Request) : HandlerResult :=
  let userAgentHeader := req.userAgent.getD "Unknown"
  let token := tokenOf req
  let profileIdentifier := profileIdOf req
  match authorizeSelect config allMisubs allProfiles col.now token profileIdentifier with
  | Except.error e => errorResult config e
  | Except.ok ctx =>
    handleAuthed col config allProfiles token profileIdentifier req.params
      userAgentHeader req.protocol req.host ctx

/-- Response status of a handler outcome, when locally determined. -/
def respStatus (r : HandlerResult) : Option Nat :=
  r.response.map HttpResponse.status

/-- Response body of a handler outcome, when locally determined. -/
def respBody (r : HandlerResult) : Option String :=
  r.response.map HttpResponse.body

/-- The request the external converter issues against the generated
callback URL for `(token, profileIdentifier)` (its query carries
`target=base64` and the derived callback token; the platform's URL
serialization/parsing round-trip is treated as transparent). -/
def callbackRequest (protocol host token : String) (profileIdentifier : Option String)
    (callbackToken : String) (ua : Option String) : Request :=
  { protocol := protocol
    host := host
    pathname := callbackPathOf (some token) profileIdentifier
    params := [("target", "base64"), ("callback_token", callbackToken)]
    userAgent := ua }

/-- Query-parameter list with every `callback_token` binding removed;
two requests "differing only in `callback_token`" have equal strips. -/
def stripCallbackParam (ps : List (String × String)) : List (String × String) :=
  ps.filter (fun p => p.1 ≠ "callback_token")

/-! ## Concrete fixtures used by witnesses and counterexamples -/

/-- A concrete node-composition collaborator returning a fixed node list. -/
def composeX : Config → String → List MisubEntry → String → Option String → String :=
  fun _ _ _ _ _ => "X"

/-- Concrete collaborators: fixed composition, byte formatter, derived
callback token `CT`, current time `1000`. -/
def col0 : Collab :=
  { compose := composeX, formatBytes := fun _ => "1 GB", callbackToken := "CT", now := 1000 }

/-- Concrete merged settings. -/
def cfg0 : Config :=
  { mytoken := "m", profileToken := "pt", subConverter := some "conv.example",
    subConfig := some "cfg.ini", FileName := "MiSub" }

/-- Concrete settings whose profile token is the literal string `sub`. -/
def cfgSub : Config :=
  { mytoken := "m", profileToken := "sub", subConverter := some "conv.example",
    subConfig := some "cfg.ini", FileName := "MiSub" }

/-- A profile expired at time `1000` (its `expiresAt` is `500`), with its
own non-blank converter override and no `subConfig` override. -/
def profExpired : Profile :=
  { id := "p1", customId := some "promoA", name := "Promo A", enabled := true,
    expiresAt := some 500, subscriptions := ["s1"], manualNodes := ["n1"],
    subConverter := some "conv2.example", subConfig := none, pfxSettings := none }

/-- An expired profile whose effective converter backend resolves blank
(own override blank, global value blank). -/
def profExpiredBlank : Profile :=
  { id := "p2", customId := some "promoB", name := "Promo B", enabled := true,
    expiresAt := some 500, subscriptions := [], manualNodes := [],
    subConverter := some "", subConfig := none, pfxSettings := none }

/-- Settings with a blank global converter backend. -/
def cfgBlank : Config :=
  { mytoken := "m", profileToken := "pt", subConverter := some "",
    subConfig := some "cfg.ini", FileName := "MiSub" }

/-- An active (never-expiring) profile named `p`, with no overrides. -/
def profActive : Profile :=
  { id := "p", customId := none, name := "Active P", enabled := true,
    expiresAt := none, subscriptions := ["s1"], manualNodes := ["n1"],
    subConverter := some "conv2.example", subConfig := some "pcfg.ini", pfxSettings := none }

/-- An enabled remote subscription entry with traffic counters. -/
def entry1 : MisubEntry :=
  { id := "s1", url := "https://a.example/sub", name := "remote", enabled := true,
    userInfo := some ⟨some 10, some 20, 100⟩, isExpiredNode := false }

/-- An enabled manual node entry. -/
def entry2 : MisubEntry :=
  { id := "n1", url := "ss://xyz@1.2.3.4:443#n", name := "manual", enabled := true,
    userInfo := none, isExpiredNode := false }

/-- A disabled remote subscription entry. -/
def entry3 : MisubEntry :=
  { id := "s2", url := "https://b.example/sub", name := "off", enabled := false,
    userInfo := some ⟨some 0, some 0, 50⟩, isExpiredNode := false }

/-- A profile-mode request with a wrong token and unrelated query flags. -/
def reqC4 : Request :=
  { protocol := "https:", host := "h", pathname := "/sub/bad/x",
    params := [("clash", ""), ("foo", "1")], userAgent := none }

/-- An authorized profile-mode request for `promoA`. -/
def reqC3 : Request :=
  { protocol := "https:", host := "h", pathname := "/sub/pt/promoA",
    params := [("target", "clash")], userAgent := none }

/-- An authorized direct-mode request. -/
def reqC5 : Request :=
  { protocol := "https:", host := "h", pathname := "/sub/m",
    params := [], userAgent := some "v2rayN/6.0" }

/-- An authorized base64-format request to expired profile `promoA`. -/
def reqC1 : Request :=
  { protocol := "https:", host := "h", pathname := "/sub/pt/promoA",
    params := [("target", "base64")], userAgent := none }

/-- An authorized base64-format request to expired profile `promoB`, whose
effective converter backend resolves blank. -/
def reqC1x : Request :=
  { protocol := "https:", host := "h", pathname := "/sub/pt/promoB",
    params := [("target", "base64")], userAgent := none }

/-- The claim's summation formula, stated in the spec's terms: each selected
entry with `enabled` true and `userInfo.total > 0` contributes
`max(0, total - (upload + download))`. -/
def specTrafficSum (subs : List MisubEntry) : Int :=
  ((subs.filter (fun s => s.enabled &&
      match s.userInfo with
      | some ui => ui.total > 0
      | none => false)).map
    (fun s =>
      match s.userInfo with
      | some ui => max 0 (ui.total - (ui.upload.getD 0 + ui.download.getD 0))
      | none => 0)).sum

/-- A valid direct request carrying a non-matching `callback_token`. -/
def reqC8a : Request :=
  { protocol := "https:", host := "h", pathname := "/sub/m",
    params := [("callback_token", "zzz")], userAgent := none }

/-- A valid direct request without `callback_token`. -/
def reqC8b : Request :=
  { protocol := "https:", host := "h", pathname := "/sub/m",
    params := [], userAgent := none }

/-- A request without `callback_token` that fails the direct-token check. -/
def reqC8x : Request :=
  { protocol := "https:", host := "h", pathname := "/sub/wrong",
    params := [], userAgent := none }

/-- An authorized clash-format request to expired profile `promoA`, whose
`subConfig` override is absent. -/
def reqC9 : Request :=
  { protocol := "https:", host := "h", pathname := "/sub/pt/promoA",
    params := [("clash", "")], userAgent := none }

/-- A valid direct base64 request without `callback_token`. -/
def reqC10a : Request :=
  { protocol := "https:", host := "h", pathname := "/sub/m",
    params := [("target", "base64")], userAgent := none }

/-- The same request with an arbitrary `callback_token` value added. -/
def reqC10b : Request :=
  { protocol := "https:", host := "h", pathname := "/sub/m",
    params := [("target", "base64"), ("callback_token", "zzz")], userAgent := none }

/-- A direct base64-format request: the given path with a bare
`target=base64` query. -/
def directB64Request (protocol host dirPath : String) (ua : Option String) : Request :=
  { protocol := protocol, host := host, pathname := dirPath,
    params := [("target", "base64")], userAgent := ua }

/-! ## Computation lemmas for the handler -/

theorem handle_error (col : Collab) (config : Config) (allMisubs : List MisubEntry)
    (allProfiles : List Profile) (req : Request) (e : EarlyResp)
    (h : authorizeSelect config allMisubs allProfiles col.now (tokenOf req) (profileIdOf req) =
      Except.error e) :
    handleMisubRequest col config allMisubs allProfiles req = errorResult config e := by
  simp only [handleMisubRequest, h]

theorem handle_ok (col : Collab) (config : Config) (allMisubs : List MisubEntry)
    (allProfiles : List Profile) (req : Request) (ctx : AuthCtx)
    (h : authorizeSelect config allMisubs allProfiles col.now (tokenOf req) (profileIdOf req) =
      Except.ok ctx) :
    handleMisubRequest col config allMisubs allProfiles req =
      handleAuthed col config allProfiles (tokenOf req) (profileIdOf req) req.params
        (req.userAgent.getD "Unknown") req.protocol req.host ctx := by
  simp only [handleMisubRequest, h]

theorem authorizeSelect_profile (config : Config) (allMisubs : List MisubEntry)
    (allProfiles : List Profile) (now : Int) (pid : String) (profile : Profile)
    (hne : config.profileToken ≠ "")
    (hfind : allProfiles.find? (fun p => profileMatches pid p) = some profile)
    (hen : profile.enabled = true) :
    authorizeSelect config allMisubs allProfiles now (some config.profileToken) (some pid) =
      Except.ok
        ⟨if isExpiredAt now profile.expiresAt then expiredNodeEntries
          else selectProfileEntries allMisubs profile,
         profile.name,
         jsOverride profile.subConverter config.subConverter,
         jsOverride profile.subConfig config.subConfig,
         isExpiredAt now profile.expiresAt⟩ := by
  unfold authorizeSelect
  simp only [jsFalsyOpt, hne, hfind, hen]
  by_cases h : isExpiredAt now profile.expiresAt <;>
    simp [h, hne]

theorem authorizeSelect_direct (config : Config) (allMisubs : List MisubEntry)
    (allProfiles : List Profile) (now : Int)
    (hne : config.mytoken ≠ "") :
    authorizeSelect config allMisubs allProfiles now (some config.mytoken) none =
      Except.ok ⟨allMisubs.filter (fun s => s.enabled), config.FileName,
                 config.subConverter, config.subConfig, false⟩ := by
  unfold authorizeSelect
  simp [jsFalsyOpt, hne]

theorem authorizeSelect_error_branch (config : Config) (allMisubs : List MisubEntry)
    (allProfiles : List Profile) (now : Int) (token profileIdentifier : Option String)
    (e : EarlyResp)
    (h : authorizeSelect config allMisubs allProfiles now token profileIdentifier =
      Except.error e) :
    e.branch = Branch.forbiddenProfile ∨ e.branch = Branch.notFoundProfile ∨
      e.branch = Branch.forbiddenDirect := by
  unfold authorizeSelect at h
  split at h
  · split at h
    · cases h
      simp
    · split at h
      · cases h
        simp
      · split at h
        · cases h
          simp
        · dsimp only at h
          split at h
          · cases h
          · cases h
  · split at h
    · cases h
      simp
    · cases h

theorem handleAuthed_unconfigured (col : Collab) (config : Config)
    (allProfiles : List Profile) (token pid : Option String)
    (params : List (String × String)) (ua proto host : String) (ctx : AuthCtx)
    (h : blankStrOpt ctx.effectiveSubConverter = true) :
    handleAuthed col config allProfiles token pid params ua proto host ctx =
      unconfiguredResult ctx := by
  simp only [handleAuthed, h, if_true]

theorem handleAuthed_base64 (col : Collab) (config : Config)
    (allProfiles : List Profile) (token pid : Option String)
    (params : List (String × String)) (ua proto host : String) (ctx : AuthCtx)
    (h1 : blankStrOpt ctx.effectiveSubConverter = false)
    (h2 : negotiateTargetFormat params ua = "base64") :
    handleAuthed col config allProfiles token pid params ua proto host ctx =
      { branch := Branch.base64Resp
        response := some ⟨200,
          jsBtoaUtf8 (if ctx.isProfileExpired then expiredContent
            else col.compose config ua ctx.targetMisubs
              (if ctx.isProfileExpired then "" else mkPrepended col ctx.targetMisubs)
              (pfxSettingsOf allProfiles pid)),
          plainHeaders⟩
        notified := !hasParam params "callback_token"
        targetMisubs := ctx.targetMisubs
        subName := ctx.subName
        targetFormat := "base64"
        effectiveSubConverter := ctx.effectiveSubConverter
        effectiveSubConfig := ctx.effectiveSubConfig
        isProfileExpired := ctx.isProfileExpired
        prependedContent := if ctx.isProfileExpired then "" else mkPrepended col ctx.targetMisubs
        converterHost := none
        converterQuery := [] } := by
  simp only [handleAuthed, h1, h2, Bool.false_eq_true, if_false, if_true]

theorem handleAuthed_shortCircuit (col : Collab) (config : Config)
    (allProfiles : List Profile) (token pid : Option String)
    (params : List (String × String)) (ua proto host : String) (ctx : AuthCtx)
    (h1 : blankStrOpt ctx.effectiveSubConverter = false)
    (h2 : negotiateTargetFormat params ua ≠ "base64")
    (h3 : getParam params "callback_token" = some col.callbackToken) :
    handleAuthed col config allProfiles token pid params ua proto host ctx =
      { branch := Branch.shortCircuit
        response := some ⟨200,
          jsBtoaUtf8 (col.compose config ua ctx.targetMisubs
            (if ctx.isProfileExpired then "" else mkPrepended col ctx.targetMisubs)
            (pfxSettingsOf allProfiles pid)),
          plainHeaders⟩
        notified := !hasParam params "callback_token"
        targetMisubs := ctx.targetMisubs
        subName := ctx.subName
        targetFormat := negotiateTargetFormat params ua
        effectiveSubConverter := ctx.effectiveSubConverter
        effectiveSubConfig := ctx.effectiveSubConfig
        isProfileExpired := ctx.isProfileExpired
        prependedContent := if ctx.isProfileExpired then "" else mkPrepended col ctx.targetMisubs
        converterHost := none
        converterQuery := [] } := by
  simp only [handleAuthed, h1, h2, h3, Bool.false_eq_true, if_false, if_true]

theorem handleAuthed_converter (col : Collab) (config : Config)
    (allProfiles : List Profile) (token pid : Option String)
    (params : List (String × String)) (ua proto host : String) (ctx : AuthCtx)
    (h1 : blankStrOpt ctx.effectiveSubConverter = false)
    (h2 : negotiateTargetFormat params ua ≠ "base64")
    (h3 : getParam params "callback_token" ≠ some col.callbackToken) :
    handleAuthed col config allProfiles token pid params ua proto host ctx =
      { branch := Branch.converter
        response := none
        notified := !hasParam params "callback_token"
        targetMisubs := ctx.targetMisubs
        subName := ctx.subName
        targetFormat := negotiateTargetFormat params ua
        effectiveSubConverter := ctx.effectiveSubConverter
        effectiveSubConfig := ctx.effectiveSubConfig
        isProfileExpired := ctx.isProfileExpired
        prependedContent := if ctx.isProfileExpired then "" else mkPrepended col ctx.targetMisubs
        converterHost := ctx.effectiveSubConverter
        converterQuery := mkConverterQuery (negotiateTargetFormat params ua)
          (mkCallbackUrl proto host token pid col.callbackToken) ctx.effectiveSubConfig } := by
  simp only [handleAuthed, h1, h2, h3, Bool.false_eq_true, if_false, if_true]

theorem handleAuthed_ctx_fields (col : Collab) (config : Config)
    (allProfiles : List Profile) (token pid : Option String)
    (params : List (String × String)) (ua proto host : String) (ctx : AuthCtx) :
    (handleAuthed col config allProfiles token pid params ua proto host ctx).targetMisubs =
      ctx.targetMisubs ∧
    (handleAuthed col config allProfiles token pid params ua proto host ctx).effectiveSubConverter =
      ctx.effectiveSubConverter ∧
    (handleAuthed col config allProfiles token pid params ua proto host ctx).effectiveSubConfig =
      ctx.effectiveSubConfig ∧
    (handleAuthed col config allProfiles token pid params ua proto host ctx).isProfileExpired =
      ctx.isProfileExpired ∧
    (handleAuthed col config allProfiles token pid params ua proto host ctx).subName =
      ctx.subName := by
  unfold handleAuthed
  dsimp only
  repeat' split
  all_goals exact ⟨rfl, rfl, rfl, rfl, rfl⟩

theorem authorizeSelect_forbidden_profile (config : Config) (allMisubs : List MisubEntry)
    (allProfiles : List Profile) (now : Int) (token : Option String) (pid : String)
    (htok : token = none ∨ token ≠ some config.profileToken) :
    authorizeSelect config allMisubs allProfiles now token (some pid) =
      Except.error ⟨Branch.forbiddenProfile, 403, "Invalid Profile Token"⟩ := by
  have hcond : (jsFalsyOpt token || decide (token ≠ some config.profileToken)) = true := by
    rcases htok with h | h
    · simp [h, jsFalsyOpt]
    · simp [h]
  unfold authorizeSelect
  dsimp only
  rw [if_pos hcond]

theorem authorizeSelect_forbidden_direct (config : Config) (allMisubs : List MisubEntry)
    (allProfiles : List Profile) (now : Int) (token : Option String)
    (htok : token = none ∨ token ≠ some config.mytoken) :
    authorizeSelect config allMisubs allProfiles now token none =
      Except.error ⟨Branch.forbiddenDirect, 403, "Invalid Token"⟩ := by
  have hcond : (jsFalsyOpt token || decide (token ≠ some config.mytoken)) = true := by
    rcases htok with h | h
    · simp [h, jsFalsyOpt]
    · simp [h]
  unfold authorizeSelect
  dsimp only
  rw [if_pos hcond]

/-- C4: in direct-token mode a missing or mismatching token, and in profile
mode a missing or mismatching profile token, always yields status 403,
independent of all other query parameters. -/
theorem c4_invalid_token_403 (col : Collab) (config : Config)
    (allMisubs : List MisubEntry) (allProfiles : List Profile) (req : Request) :
    (∀ pid, profileIdOf req = some pid →
      tokenOf req = none ∨ tokenOf req ≠ some config.profileToken →
      respStatus (handleMisubRequest col config allMisubs allProfiles req) = some 403) ∧
    (profileIdOf req = none →
      tokenOf req = none ∨ tokenOf req ≠ some config.mytoken →
      respStatus (handleMisubRequest col config allMisubs allProfiles req) = some 403) := by
  constructor
  · intro pid hpid htok
    have herr : authorizeSelect config allMisubs allProfiles col.now (tokenOf req)
        (profileIdOf req) =
        Except.error ⟨Branch.forbiddenProfile, 403, "Invalid Profile Token"⟩ := by
      rw [hpid]
      exact authorizeSelect_forbidden_profile config allMisubs allProfiles col.now
        (tokenOf req) pid htok
    rw [handle_error col config allMisubs allProfiles req _ herr]
    rfl
  · intro hpid htok
    have herr : authorizeSelect config allMisubs allProfiles col.now (tokenOf req)
        (profileIdOf req) =
        Except.error ⟨Branch.forbiddenDirect, 403, "Invalid Token"⟩ := by
      rw [hpid]
      exact authorizeSelect_forbidden_direct config allMisubs allProfiles col.now
        (tokenOf req) htok
    rw [handle_error col config allMisubs allProfiles req _ herr]
    rfl

/-- Witness for C4 at a concrete request. -/
theorem c4_invalid_token_403_witness :
    profileIdOf reqC4 = some "x" ∧
    (tokenOf reqC4 = none ∨ tokenOf reqC4 ≠ some cfg0.profileToken) ∧
    respStatus (handleMisubRequest col0 cfg0 [entry1] [profActive] reqC4) = some 403 :=
  ⟨by decide, Or.inr (by decide),
    (c4_invalid_token_403 col0 cfg0 [entry1] [profActive] reqC4).1 "x" (by decide)
      (Or.inr (by decide))⟩

/-- C3: for an authorized profile request the effective converter backend is
the profile's own `subConverter` when that value is present and non-blank or
entirely absent, and falls back to the global settings value only when the
profile's value is present but blank; the same resolution applies to
`subConfig`. -/
theorem c3_effective_override_resolution (col : Collab) (config : Config)
    (allMisubs : List MisubEntry) (allProfiles : List Profile) (req : Request)
    (pid : String) (profile : Profile)
    (hpid : profileIdOf req = some pid)
    (htok : tokenOf req = some config.profileToken)
    (hne : config.profileToken ≠ "")
    (hfind : allProfiles.find? (fun p => profileMatches pid p) = some profile)
    (hen : profile.enabled = true) :
    ((∀ s, profile.subConverter = some s → jsTrim s ≠ "" →
      (handleMisubRequest col config allMisubs allProfiles req).effectiveSubConverter = some s) ∧
     (profile.subConverter = none →
      (handleMisubRequest col config allMisubs allProfiles req).effectiveSubConverter = none) ∧
     (∀ s, profile.subConverter = some s → jsTrim s = "" →
      (handleMisubRequest col config allMisubs allProfiles req).effectiveSubConverter =
        config.subConverter)) ∧
    ((∀ s, profile.subConfig = some s → jsTrim s ≠ "" →
      (handleMisubRequest col config allMisubs allProfiles req).effectiveSubConfig = some s) ∧
     (profile.subConfig = none →
      (handleMisubRequest col config allMisubs allProfiles req).effectiveSubConfig = none) ∧
     (∀ s, profile.subConfig = some s → jsTrim s = "" →
      (handleMisubRequest col config allMisubs allProfiles req).effectiveSubConfig =
        config.subConfig)) := by
  have hok := authorizeSelect_profile config allMisubs allProfiles col.now pid profile
    hne hfind hen
  have hok2 : authorizeSelect config allMisubs allProfiles col.now (tokenOf req)
      (profileIdOf req) = Except.ok
        ⟨if isExpiredAt col.now profile.expiresAt then expiredNodeEntries
          else selectProfileEntries allMisubs profile,
         profile.name,
         jsOverride profile.subConverter config.subConverter,
         jsOverride profile.subConfig config.subConfig,
         isExpiredAt col.now profile.expiresAt⟩ := by
    rw [htok, hpid]
    exact hok
  rw [handle_ok col config allMisubs allProfiles req _ hok2]
  have hf := handleAuthed_ctx_fields col config allProfiles (tokenOf req) (profileIdOf req)
    req.params (req.userAgent.getD "Unknown") req.protocol req.host
    ⟨if isExpiredAt col.now profile.expiresAt then expiredNodeEntries
      else selectProfileEntries allMisubs profile,
     profile.name,
     jsOverride profile.subConverter config.subConverter,
     jsOverride profile.subConfig config.subConfig,
     isExpiredAt col.now profile.expiresAt⟩
  rw [hf.2.1, hf.2.2.1]
  constructor
  · refine ⟨?_, ?_, ?_⟩
    · intro s hs hns
      simp [jsOverride, hs, hns]
    · intro hs
      simp [jsOverride, hs]
    · intro s hs hbs
      simp [jsOverride, hs, hbs]
  · refine ⟨?_, ?_, ?_⟩
    · intro s hs hns
      simp [jsOverride, hs, hns]
    · intro hs
      simp [jsOverride, hs]
    · intro s hs hbs
      simp [jsOverride, hs, hbs]

/-- Witness for C3 at a concrete request: `promoA` has a non-blank converter
override and no `subConfig` override. -/
theorem c3_effective_override_resolution_witness :
    profileIdOf reqC3 = some "promoA" ∧
    tokenOf reqC3 = some cfg0.profileToken ∧
    cfg0.profileToken ≠ "" ∧
    List.find? (fun p => profileMatches "promoA" p) [profExpired] = some profExpired ∧
    profExpired.enabled = true ∧
    profExpired.subConverter = some "conv2.example" ∧
    jsTrim "conv2.example" ≠ "" ∧
    (handleMisubRequest col0 cfg0 [entry1] [profExpired] reqC3).effectiveSubConverter =
      some "conv2.example" ∧
    profExpired.subConfig = none ∧
    (handleMisubRequest col0 cfg0 [entry1] [profExpired] reqC3).effectiveSubConfig = none :=
  ⟨by decide, by decide, by decide, by decide, by decide, by decide, by decide,
    ((c3_effective_override_resolution col0 cfg0 [entry1] [profExpired] reqC3 "promoA"
      profExpired (by decide) (by decide) (by decide) (by decide) (by decide)).1.1
      "conv2.example" (by decide) (by decide)),
    by decide,
    ((c3_effective_override_resolution col0 cfg0 [entry1] [profExpired] reqC3 "promoA"
      profExpired (by decide) (by decide) (by decide) (by decide) (by decide)).2.2.1
      (by decide))⟩

/-- C5: node-set selection. For an authorized active profile the selected
entries are exactly the enabled entries whose id lies in the profile's
subscription set (for urls starting with an HTTP scheme) or manual-node set
(otherwise); in direct-token mode exactly the enabled entries; in both modes
the stored order is preserved (the selection is a sublist). -/
theorem c5_node_selection (col : Collab) (config : Config)
    (allMisubs : List MisubEntry) (allProfiles : List Profile) (req : Request) :
    (∀ pid profile, profileIdOf req = some pid →
      tokenOf req = some config.profileToken → config.profileToken ≠ "" →
      allProfiles.find? (fun p => profileMatches pid p) = some profile →
      profile.enabled = true → isExpiredAt col.now profile.expiresAt = false →
      (handleMisubRequest col config allMisubs allProfiles req).targetMisubs =
        allMisubs.filter (fun item =>
          item.enabled &&
          ((jsStartsWith item.url "http" && profile.subscriptions.contains item.id) ||
           (!jsStartsWith item.url "http" && profile.manualNodes.contains item.id))) ∧
      List.Sublist (handleMisubRequest col config allMisubs allProfiles req).targetMisubs
        allMisubs) ∧
    (profileIdOf req = none → tokenOf req = some config.mytoken → config.mytoken ≠ "" →
      (handleMisubRequest col config allMisubs allProfiles req).targetMisubs =
        allMisubs.filter (fun s => s.enabled) ∧
      List.Sublist (handleMisubRequest col config allMisubs allProfiles req).targetMisubs
        allMisubs) := by
  constructor
  · intro pid profile hpid htok hne hfind hen hexp
    have hok2 : authorizeSelect config allMisubs allProfiles col.now (tokenOf req)
        (profileIdOf req) = Except.ok
          ⟨selectProfileEntries allMisubs profile, profile.name,
           jsOverride profile.subConverter config.subConverter,
           jsOverride profile.subConfig config.subConfig, false⟩ := by
      rw [htok, hpid]
      have := authorizeSelect_profile config allMisubs allProfiles col.now pid profile
        hne hfind hen
      rw [hexp] at this
      simpa using this
    rw [handle_ok col config allMisubs allProfiles req _ hok2]
    have hf := handleAuthed_ctx_fields col config allProfiles (tokenOf req) (profileIdOf req)
      req.params (req.userAgent.getD "Unknown") req.protocol req.host
      ⟨selectProfileEntries allMisubs profile, profile.name,
       jsOverride profile.subConverter config.subConverter,
       jsOverride profile.subConfig config.subConfig, false⟩
    rw [hf.1]
    refine ⟨rfl, ?_⟩
    exact List.filter_sublist allMisubs
  · intro hpid htok hne
    have hok2 : authorizeSelect config allMisubs allProfiles col.now (tokenOf req)
        (profileIdOf req) = Except.ok
          ⟨allMisubs.filter (fun s => s.enabled), config.FileName,
           config.subConverter, config.subConfig, false⟩ := by
      rw [htok, hpid]
      exact authorizeSelect_direct config allMisubs allProfiles col.now hne
    rw [handle_ok col config allMisubs allProfiles req _ hok2]
    have hf := handleAuthed_ctx_fields col config allProfiles (tokenOf req) (profileIdOf req)
      req.params (req.userAgent.getD "Unknown") req.protocol req.host
      ⟨allMisubs.filter (fun s => s.enabled), config.FileName,
       config.subConverter, config.subConfig, false⟩
    rw [hf.1]
    exact ⟨rfl, List.filter_sublist allMisubs⟩

/-- Witness for C5 in direct mode: exactly the enabled entries are kept,
in stored order. -/
theorem c5_node_selection_witness :
    profileIdOf reqC5 = none ∧
    tokenOf reqC5 = some cfg0.mytoken ∧
    cfg0.mytoken ≠ "" ∧
    (handleMisubRequest col0 cfg0 [entry1, entry3, entry2] [] reqC5).targetMisubs =
      [entry1, entry3, entry2].filter (fun s => s.enabled) ∧
    List.Sublist (handleMisubRequest col0 cfg0 [entry1, entry3, entry2] [] reqC5).targetMisubs
      [entry1, entry3, entry2] :=
  ⟨by decide, by decide, by decide,
    ((c5_node_selection col0 cfg0 [entry1, entry3, entry2] [] reqC5).2 (by decide)
      (by decide) (by decide)).1,
    ((c5_node_selection col0 cfg0 [entry1, entry3, entry2] [] reqC5).2 (by decide)
      (by decide) (by decide)).2⟩

theorem decodeB64_expiredContent :
    decodeB64 (jsBtoaUtf8 expiredContent) = some (utf8Bytes expiredContent) := by
  decide

/-- C1 (amended): a request resolving to an expired profile (valid profile
token, profile found and enabled, `expiresAt` strictly in the past) always
has the fixed 4-entry expired-placeholder set as its effective node set,
independent of the profile's membership; and when the negotiated format is
`base64` and the effective converter backend is non-blank, the response body
is the base64 encoding of — and decodes to — the 4 placeholder SS URIs
joined by newlines with a trailing newline. -/
theorem c1_expired_placeholder (col : Collab) (config : Config)
    (allMisubs : List MisubEntry) (allProfiles : List Profile) (req : Request)
    (pid : String) (profile : Profile) (texp : Int)
    (hpid : profileIdOf req = some pid)
    (htok : tokenOf req = some config.profileToken)
    (hne : config.profileToken ≠ "")
    (hfind : allProfiles.find? (fun p => profileMatches pid p) = some profile)
    (hen : profile.enabled = true)
    (hpast : profile.expiresAt = some texp) (hlt : texp < col.now) :
    (handleMisubRequest col config allMisubs allProfiles req).targetMisubs =
      expiredNodeEntries ∧
    (negotiateTargetFormat req.params (req.userAgent.getD "Unknown") = "base64" →
     blankStrOpt (jsOverride profile.subConverter config.subConverter) = false →
     respBody (handleMisubRequest col config allMisubs allProfiles req) =
       some (jsBtoaUtf8 expiredContent) ∧
     (respBody (handleMisubRequest col config allMisubs allProfiles req)).bind decodeB64 =
       some (utf8Bytes (String.intercalate "\n" EXPIRED_NODES ++ "\n"))) := by
  have hexp : isExpiredAt col.now profile.expiresAt = true := by
    rw [hpast]
    simp only [isExpiredAt, gt_iff_lt, decide_eq_true_eq]
    exact hlt
  have hok2 : authorizeSelect config allMisubs allProfiles col.now (tokenOf req)
      (profileIdOf req) = Except.ok
        ⟨expiredNodeEntries, profile.name,
         jsOverride profile.subConverter config.subConverter,
         jsOverride profile.subConfig config.subConfig, true⟩ := by
    rw [htok, hpid]
    have := authorizeSelect_profile config allMisubs allProfiles col.now pid profile
      hne hfind hen
    rw [hexp] at this
    simpa using this
  rw [handle_ok col config allMisubs allProfiles req _ hok2]
  constructor
  · exact (handleAuthed_ctx_fields col config allProfiles (tokenOf req) (profileIdOf req)
      req.params (req.userAgent.getD "Unknown") req.protocol req.host _).1
  · intro hb64 hblank
    rw [handleAuthed_base64 col config allProfiles (tokenOf req) (profileIdOf req)
      req.params (req.userAgent.getD "Unknown") req.protocol req.host _ hblank hb64]
    constructor
    · rfl
    · exact decodeB64_expiredContent

/-- Witness for C1 at a concrete expired profile. -/
theorem c1_expired_placeholder_witness :
    profileIdOf reqC1 = some "promoA" ∧
    tokenOf reqC1 = some cfg0.profileToken ∧
    cfg0.profileToken ≠ "" ∧
    List.find? (fun p => profileMatches "promoA" p) [profExpired] = some profExpired ∧
    profExpired.enabled = true ∧
    profExpired.expiresAt = some 500 ∧ ((500 : Int) < col0.now) ∧
    negotiateTargetFormat reqC1.params (reqC1.userAgent.getD "Unknown") = "base64" ∧
    blankStrOpt (jsOverride profExpired.subConverter cfg0.subConverter) = false ∧
    ((handleMisubRequest col0 cfg0 [entry1] [profExpired] reqC1).targetMisubs =
      expiredNodeEntries ∧
     respBody (handleMisubRequest col0 cfg0 [entry1] [profExpired] reqC1) =
      some (jsBtoaUtf8 expiredContent)) :=
  ⟨by decide, by decide, by decide, by decide, by decide, by decide, by decide, by decide,
    by decide,
    (c1_expired_placeholder col0 cfg0 [entry1] [profExpired] reqC1 "promoA" profExpired 500
      (by decide) (by decide) (by decide) (by decide) (by decide) (by decide) (by decide)).1,
    ((c1_expired_placeholder col0 cfg0 [entry1] [profExpired] reqC1 "promoA" profExpired 500
      (by decide) (by decide) (by decide) (by decide) (by decide) (by decide) (by decide)).2
      (by decide) (by decide)).1⟩

/-- C1 counterexample: for an expired profile whose effective converter
backend resolves blank, a negotiated-base64 request is answered by a 500
misconfiguration body, not by the encoded placeholder list, refuting the
claim as stated (without the non-blank-backend carve-out). -/
theorem c1_counterexample :
    tokenOf reqC1x = some cfgBlank.profileToken ∧
    List.find? (fun p => profileMatches "promoB" p) [profExpiredBlank] =
      some profExpiredBlank ∧
    profExpiredBlank.enabled = true ∧
    profExpiredBlank.expiresAt = some 500 ∧ ((500 : Int) < col0.now) ∧
    negotiateTargetFormat reqC1x.params (reqC1x.userAgent.getD "Unknown") = "base64" ∧
    respBody (handleMisubRequest col0 cfgBlank [entry1] [profExpiredBlank] reqC1x) =
      some "Subconverter backend is not configured." ∧
    respBody (handleMisubRequest col0 cfgBlank [entry1] [profExpiredBlank] reqC1x) ≠
      some (jsBtoaUtf8 expiredContent) := by
  decide

/-- C2 (amended): format negotiation precedence. A present and non-empty
explicit `target` is used verbatim and overrides everything; otherwise
(absent or empty `target`) the first present bare flag among the supported
formats wins, with `v2ray`/`trojan` normalised to `base64`; otherwise the
first matching keyword of the ordered case-insensitive User-Agent table
wins; otherwise the result is `base64`. A present-but-empty `target` is
ignored like an absent one. -/
theorem c2_format_negotiation (params : List (String × String)) (ua : String) :
    (∀ t, getParam params "target" = some t → t ≠ "" →
      negotiateTargetFormat params ua = t) ∧
    ((getParam params "target" = none ∨ getParam params "target" = some "") →
      ∀ f, SUPPORTED_FORMATS.find? (fun g => hasParam params g) = some f →
        negotiateTargetFormat params ua =
          (if f = "v2ray" ∨ f = "trojan" then "base64" else f)) ∧
    ((getParam params "target" = none ∨ getParam params "target" = some "") →
      SUPPORTED_FORMATS.find? (fun g => hasParam params g) = none →
      ∀ kv, UA_MAPPING.find? (fun kv => jsIncludes (jsToLower ua) kv.1) = some kv →
        negotiateTargetFormat params ua = kv.2) ∧
    ((getParam params "target" = none ∨ getParam params "target" = some "") →
      SUPPORTED_FORMATS.find? (fun g => hasParam params g) = none →
      UA_MAPPING.find? (fun kv => jsIncludes (jsToLower ua) kv.1) = none →
      negotiateTargetFormat params ua = "base64") := by
  have hflags : (getParam params "target" = none ∨ getParam params "target" = some "") →
      negotiateTargetFormat params ua = negotiateFromFlags params ua := by
    intro h0
    unfold negotiateTargetFormat
    rcases h0 with h | h
    · rw [h]
    · rw [h]
      simp
  refine ⟨?_, ?_, ?_, ?_⟩
  · intro t ht hne
    unfold negotiateTargetFormat
    rw [ht]
    simp [hne]
  · intro h0 f hf
    rw [hflags h0]
    unfold negotiateFromFlags
    rw [hf]
    dsimp only
    by_cases hv : f = "v2ray" ∨ f = "trojan"
    · have hb : (decide (f = "v2ray") || decide (f = "trojan")) = true := by
        rcases hv with h | h <;> simp [h]
      rw [if_pos hb, if_pos hv]
    · have h1 : ¬f = "v2ray" := fun h => hv (Or.inl h)
      have h2 : ¬f = "trojan" := fun h => hv (Or.inr h)
      rw [if_neg (by simp [h1, h2]), if_neg hv]
  · intro h0 hnone kv hkv
    rw [hflags h0]
    unfold negotiateFromFlags
    rw [hnone]
    dsimp only
    rw [hkv]
  · intro h0 hnone hua
    rw [hflags h0]
    unfold negotiateFromFlags
    rw [hnone]
    dsimp only
    rw [hua]

/-- Witness for C2: an explicit non-empty target wins over a present flag
and a matching User-Agent. -/
theorem c2_format_negotiation_witness :
    getParam [("target", "loon"), ("clash", "")] "target" = some "loon" ∧
    "loon" ≠ "" ∧
    negotiateTargetFormat [("target", "loon"), ("clash", "")] "Shadowrocket/1.2" = "loon" :=
  ⟨by decide, by decide,
    (c2_format_negotiation [("target", "loon"), ("clash", "")] "Shadowrocket/1.2").1
      "loon" (by decide) (by decide)⟩

/-- C2 counterexample: a request whose query carries an explicit `target`
parameter with empty value together with a bare `clash` flag negotiates
`clash`, not the verbatim (empty) target value — the explicit parameter
does not always override later stages. -/
theorem c2_counterexample :
    getParam [("target", ""), ("clash", "")] "target" = some "" ∧
    negotiateTargetFormat [("target", ""), ("clash", "")] "SomeUA" = "clash" ∧
    negotiateTargetFormat [("target", ""), ("clash", "")] "SomeUA" ≠ "" := by
  decide

theorem remainingOf_nonneg (s : MisubEntry) : 0 ≤ remainingOf s := by
  unfold remainingOf
  repeat' split
  · exact le_max_left 0 _
  · exact le_refl 0
  · exact le_refl 0

theorem remainingOf_eq (s : MisubEntry) :
    remainingOf s =
      if (s.enabled && match s.userInfo with
          | some ui => ui.total > 0
          | none => false) then
        (match s.userInfo with
         | some ui => max 0 (ui.total - (ui.upload.getD 0 + ui.download.getD 0))
         | none => 0)
      else 0 := by
  unfold remainingOf
  cases h : s.userInfo <;> simp [h]

theorem totalRemainingBytes_eq_sum (l : List MisubEntry) :
    totalRemainingBytes l = (l.map remainingOf).sum := by
  have key : ∀ (l : List MisubEntry) (acc : Int),
      l.foldl (fun acc sub => acc + remainingOf sub) acc =
        acc + (l.map remainingOf).sum := by
    intro l
    induction l with
    | nil => intro acc; simp
    | cons x xs ih => intro acc; simp [ih, add_assoc]
  unfold totalRemainingBytes
  simpa using key l 0

theorem handleAuthed_prepended (col : Collab) (config : Config)
    (allProfiles : List Profile) (token pid : Option String)
    (params : List (String × String)) (ua proto host : String) (ctx : AuthCtx) :
    (handleAuthed col config allProfiles token pid params ua proto host ctx).prependedContent =
      if blankStrOpt ctx.effectiveSubConverter then ""
      else if ctx.isProfileExpired then "" else mkPrepended col ctx.targetMisubs := by
  unfold handleAuthed
  dsimp only
  repeat' split
  all_goals rfl

/-- C7: the traffic summarizer. The aggregate equals the spec's sum formula;
adding an entry with positive remaining quota never decreases it; a zero
aggregate yields no placeholder while a positive aggregate yields exactly
the single trojan placeholder line; and the placeholder computation is
applied only on the non-expired path (an expired profile always yields an
empty prepended content). -/
theorem c7_traffic_summarizer (col : Collab) :
    (∀ subs, totalRemainingBytes subs = specTrafficSum subs) ∧
    (∀ (l₁ l₂ : List MisubEntry) (e : MisubEntry) (ui : UserInfo),
      e.enabled = true → e.userInfo = some ui → 0 < ui.total →
      0 < ui.total - (ui.upload.getD 0 + ui.download.getD 0) →
      totalRemainingBytes (l₁ ++ l₂) ≤ totalRemainingBytes (l₁ ++ e :: l₂)) ∧
    (∀ subs, totalRemainingBytes subs = 0 → mkPrepended col subs = "") ∧
    (∀ subs, 0 < totalRemainingBytes subs → mkPrepended col subs =
      "trojan://00000000-0000-0000-0000-000000000000@127.0.0.1:443#" ++
        encodeURIComponentJS ("流量剩余 ≫ " ++ col.formatBytes (totalRemainingBytes subs))) ∧
    (∀ (config : Config) (allProfiles : List Profile) (token pid : Option String)
      (params : List (String × String)) (ua proto host : String) (ctx : AuthCtx),
      blankStrOpt ctx.effectiveSubConverter = false → ctx.isProfileExpired = false →
      (handleAuthed col config allProfiles token pid params ua proto host ctx).prependedContent =
        mkPrepended col ctx.targetMisubs) ∧
    (∀ (config : Config) (allProfiles : List Profile) (token pid : Option String)
      (params : List (String × String)) (ua proto host : String) (ctx : AuthCtx),
      ctx.isProfileExpired = true →
      (handleAuthed col config allProfiles token pid params ua proto host ctx).prependedContent =
        "") := by
  refine ⟨?_, ?_, ?_, ?_, ?_, ?_⟩
  · intro subs
    rw [totalRemainingBytes_eq_sum]
    unfold specTrafficSum
    induction subs with
    | nil => simp
    | cons x xs ih =>
      by_cases h : (x.enabled && match x.userInfo with
          | some ui => ui.total > 0
          | none => false) = true <;>
        simp [List.filter_cons, h, ih, remainingOf_eq]
  · intro l₁ l₂ e ui _ _ _ _
    rw [totalRemainingBytes_eq_sum, totalRemainingBytes_eq_sum]
    simp only [List.map_append, List.sum_append, List.map_cons, List.sum_cons]
    have := remainingOf_nonneg e
    linarith
  · intro subs h
    simp [mkPrepended, h]
  · intro subs h
    simp [mkPrepended, h]
  · intro config allProfiles token pid params ua proto host ctx h1 hexp
    rw [handleAuthed_prepended, h1, hexp]
    simp
  · intro config allProfiles token pid params ua proto host ctx hexp
    rw [handleAuthed_prepended, hexp]
    by_cases h1 : blankStrOpt ctx.effectiveSubConverter <;> simp [h1]

/-- Witness for C7: monotonicity and the zero/positive placeholder cases at
concrete entries. -/
theorem c7_traffic_summarizer_witness :
    entry1.enabled = true ∧ entry1.userInfo = some ⟨some 10, some 20, (100 : Int)⟩ ∧
    ((0 : Int) < 100) ∧
    ((0 : Int) < (100 : Int) - ((some (10 : Int)).getD 0 + (some (20 : Int)).getD 0)) ∧
    totalRemainingBytes ([entry2] ++ [entry3]) ≤
      totalRemainingBytes ([entry2] ++ entry1 :: [entry3]) ∧
    (totalRemainingBytes [entry2] = 0 ∧ mkPrepended col0 [entry2] = "") :=
  ⟨rfl, rfl, by decide, by decide,
    (c7_traffic_summarizer col0).2.1 [entry2] [entry3] entry1 ⟨some 10, some 20, 100⟩
      rfl rfl (by decide) (by decide),
    by decide, (c7_traffic_summarizer col0).2.2.1 [entry2] (by decide)⟩

theorem handleAuthed_notified (col : Collab) (config : Config)
    (allProfiles : List Profile) (token pid : Option String)
    (params : List (String × String)) (ua proto host : String) (ctx : AuthCtx) :
    (handleAuthed col config allProfiles token pid params ua proto host ctx).notified =
      (!blankStrOpt ctx.effectiveSubConverter && !hasParam params "callback_token") := by
  unfold handleAuthed
  dsimp only
  repeat' split
  all_goals simp_all [unconfiguredResult]

/-- C8 (amended): a request carrying a `callback_token` query parameter —
matching or not — never schedules the access notification; a request without
that parameter schedules it provided the request passes the token, profile
and converter-backend checks (that is, does not take a 403/404/500 early
return). -/
theorem c8_notification_suppression (col : Collab) (config : Config)
    (allMisubs : List MisubEntry) (allProfiles : List Profile) (req : Request) :
    (hasParam req.params "callback_token" = true →
      (handleMisubRequest col config allMisubs allProfiles req).notified = false) ∧
    (hasParam req.params "callback_token" = false →
      (handleMisubRequest col config allMisubs allProfiles req).branch ≠
        Branch.forbiddenProfile →
      (handleMisubRequest col config allMisubs allProfiles req).branch ≠
        Branch.notFoundProfile →
      (handleMisubRequest col config allMisubs allProfiles req).branch ≠
        Branch.forbiddenDirect →
      (handleMisubRequest col config allMisubs allProfiles req).branch ≠
        Branch.unconfigured →
      (handleMisubRequest col config allMisubs allProfiles req).notified = true) := by
  cases hA : authorizeSelect config allMisubs allProfiles col.now (tokenOf req)
      (profileIdOf req) with
  | error e =>
    rw [handle_error col config allMisubs allProfiles req e hA]
    constructor
    · intro _
      rfl
    · intro _ h1 h2 h3 _
      exfalso
      rcases authorizeSelect_error_branch config allMisubs allProfiles col.now _ _ e hA with
        hb | hb | hb
      · exact h1 (by simp [errorResult, hb])
      · exact h2 (by simp [errorResult, hb])
      · exact h3 (by simp [errorResult, hb])
  | ok ctx =>
    rw [handle_ok col config allMisubs allProfiles req ctx hA]
    constructor
    · intro h
      rw [handleAuthed_notified]
      simp [h]
    · intro h _ _ _ hb4
      by_cases hblank : blankStrOpt ctx.effectiveSubConverter = true
      · exfalso
        apply hb4
        rw [handleAuthed_unconfigured _ _ _ _ _ _ _ _ _ _ hblank]
        rfl
      · rw [handleAuthed_notified]
        have hblank' : blankStrOpt ctx.effectiveSubConverter = false := by
          simpa using hblank
        simp [h, hblank']

/-- Witness for C8: suppression with the parameter present, scheduling on a
request that reaches the main pipeline without it. -/
theorem c8_notification_suppression_witness :
    hasParam reqC8a.params "callback_token" = true ∧
    (handleMisubRequest col0 cfg0 [entry1] [] reqC8a).notified = false ∧
    hasParam reqC8b.params "callback_token" = false ∧
    (handleMisubRequest col0 cfg0 [entry1] [] reqC8b).branch ≠ Branch.forbiddenProfile ∧
    (handleMisubRequest col0 cfg0 [entry1] [] reqC8b).branch ≠ Branch.notFoundProfile ∧
    (handleMisubRequest col0 cfg0 [entry1] [] reqC8b).branch ≠ Branch.forbiddenDirect ∧
    (handleMisubRequest col0 cfg0 [entry1] [] reqC8b).branch ≠ Branch.unconfigured ∧
    (handleMisubRequest col0 cfg0 [entry1] [] reqC8b).notified = true :=
  ⟨by decide,
    (c8_notification_suppression col0 cfg0 [entry1] [] reqC8a).1 (by decide),
    by decide, by decide, by decide, by decide, by decide,
    (c8_notification_suppression col0 cfg0 [entry1] [] reqC8b).2 (by decide) (by decide)
      (by decide) (by decide) (by decide)⟩

/-- C8 counterexample: a request without `callback_token` that fails the
token check is answered 403 and the notification is not scheduled, refuting
the unconditional "is scheduled" half of the claim. -/
theorem c8_counterexample :
    hasParam reqC8x.params "callback_token" = false ∧
    respStatus (handleMisubRequest col0 cfg0 [entry1] [] reqC8x) = some 403 ∧
    (handleMisubRequest col0 cfg0 [entry1] [] reqC8x).notified = false := by
  decide

theorem mkConverterQuery_mem (tf url : String) (effCfg : Option String) :
    ("target", tf) ∈ mkConverterQuery tf url effCfg ∧
    ("url", url) ∈ mkConverterQuery tf url effCfg ∧
    ("new_name", "true") ∈ mkConverterQuery tf url effCfg ∧
    ((∃ v, ("config", v) ∈ mkConverterQuery tf url effCfg) ↔
      ((tf = "clash" ∨ tf = "loon" ∨ tf = "surge") ∧ effCfg.map jsTrim ≠ some "")) ∧
    (∀ v, ("config", v) ∈ mkConverterQuery tf url effCfg → v = jsStr effCfg) := by
  unfold mkConverterQuery
  split
  · rename_i hb
    simp only [Bool.and_eq_true, Bool.or_eq_true, decide_eq_true_eq] at hb
    refine ⟨by simp, by simp, by simp, ?_, ?_⟩
    · constructor
      · intro _
        exact ⟨by tauto, hb.2⟩
      · intro _
        exact ⟨jsStr effCfg, by simp⟩
    · intro v hv
      simp only [List.append_assoc, List.cons_append, List.nil_append, List.mem_cons,
        List.mem_singleton, Prod.mk.injEq] at hv
      rcases hv with ⟨h, _⟩ | ⟨h, _⟩ | ⟨_, h⟩ | ⟨h, _⟩ | h
      · exact absurd h (by decide)
      · exact absurd h (by decide)
      · exact h
      · exact absurd h (by decide)
      · exact absurd h (List.not_mem_nil _)
  · rename_i hb
    simp only [Bool.and_eq_true, Bool.or_eq_true, decide_eq_true_eq, not_and_or] at hb
    refine ⟨by simp, by simp, by simp, ?_, ?_⟩
    · constructor
      · intro ⟨v, hv⟩
        exfalso
        simp only [List.append_assoc, List.cons_append, List.nil_append, List.mem_cons,
          List.mem_singleton, Prod.mk.injEq] at hv
        rcases hv with ⟨h, _⟩ | ⟨h, _⟩ | ⟨h, _⟩ | h
        · exact absurd h (by decide)
        · exact absurd h (by decide)
        · exact absurd h (by decide)
        · exact absurd h (List.not_mem_nil _)
      · intro ⟨h1, h2⟩
        exfalso
        rcases hb with hb | hb
        · rcases h1 with h | h | h <;> tauto
        · exact hb h2
    · intro v hv
      exfalso
      simp only [List.append_assoc, List.cons_append, List.nil_append, List.mem_cons,
        List.mem_singleton, Prod.mk.injEq] at hv
      rcases hv with ⟨h, _⟩ | ⟨h, _⟩ | ⟨h, _⟩ | h
      · exact absurd h (by decide)
      · exact absurd h (by decide)
      · exact absurd h (by decide)
      · exact absurd h (List.not_mem_nil _)

/-- C9 (amended): every request that reaches the outbound converter call
sends `target` = the negotiated (non-base64) format, `url` = the generated
callback URL, and `new_name=true`; the `config` parameter is set iff the
format is clash, loon or surge AND the effective config string is not a
present-but-blank value — in particular, when the effective config is
absent, `config` is still set, to the literal string `undefined`. -/
theorem c9_converter_query (col : Collab) (config : Config)
    (allMisubs : List MisubEntry) (allProfiles : List Profile) (req : Request)
    (h : (handleMisubRequest col config allMisubs allProfiles req).branch =
      Branch.converter) :
    ("target", (handleMisubRequest col config allMisubs allProfiles req).targetFormat) ∈
      (handleMisubRequest col config allMisubs allProfiles req).converterQuery ∧
    ("url", mkCallbackUrl req.protocol req.host (tokenOf req) (profileIdOf req)
      col.callbackToken) ∈
      (handleMisubRequest col config allMisubs allProfiles req).converterQuery ∧
    ("new_name", "true") ∈
      (handleMisubRequest col config allMisubs allProfiles req).converterQuery ∧
    (handleMisubRequest col config allMisubs allProfiles req).targetFormat =
      negotiateTargetFormat req.params (req.userAgent.getD "Unknown") ∧
    (handleMisubRequest col config allMisubs allProfiles req).targetFormat ≠ "base64" ∧
    ((∃ v, ("config", v) ∈
        (handleMisubRequest col config allMisubs allProfiles req).converterQuery) ↔
      (((handleMisubRequest col config allMisubs allProfiles req).targetFormat = "clash" ∨
        (handleMisubRequest col config allMisubs allProfiles req).targetFormat = "loon" ∨
        (handleMisubRequest col config allMisubs allProfiles req).targetFormat = "surge") ∧
       (handleMisubRequest col config allMisubs allProfiles req).effectiveSubConfig.map
         jsTrim ≠ some "")) ∧
    (∀ v, ("config", v) ∈
        (handleMisubRequest col config allMisubs allProfiles req).converterQuery →
      v = jsStr (handleMisubRequest col config allMisubs allProfiles req).effectiveSubConfig) := by
  cases hA : authorizeSelect config allMisubs allProfiles col.now (tokenOf req)
      (profileIdOf req) with
  | error e =>
    exfalso
    rw [handle_error col config allMisubs allProfiles req e hA] at h
    rcases authorizeSelect_error_branch config allMisubs allProfiles col.now _ _ e hA with
      hb | hb | hb <;> simp [errorResult, hb] at h
  | ok ctx =>
    rw [handle_ok col config allMisubs allProfiles req ctx hA] at h ⊢
    by_cases h1 : blankStrOpt ctx.effectiveSubConverter = true
    · exfalso
      rw [handleAuthed_unconfigured _ _ _ _ _ _ _ _ _ _ h1] at h
      simp [unconfiguredResult] at h
    · have h1' : blankStrOpt ctx.effectiveSubConverter = false := by
        simpa using h1
      by_cases h2 : negotiateTargetFormat req.params (req.userAgent.getD "Unknown") = "base64"
      · exfalso
        rw [handleAuthed_base64 _ _ _ _ _ _ _ _ _ _ h1' h2] at h
        simp at h
      · by_cases h3 : getParam req.params "callback_token" = some col.callbackToken
        · exfalso
          rw [handleAuthed_shortCircuit _ _ _ _ _ _ _ _ _ _ h1' h2 h3] at h
          simp at h
        · rw [handleAuthed_converter _ _ _ _ _ _ _ _ _ _ h1' h2 h3]
          dsimp only
          have hm := mkConverterQuery_mem
            (negotiateTargetFormat req.params (req.userAgent.getD "Unknown"))
            (mkCallbackUrl req.protocol req.host (tokenOf req) (profileIdOf req)
              col.callbackToken)
            ctx.effectiveSubConfig
          exact ⟨hm.1, hm.2.1, hm.2.2.1, rfl, h2, hm.2.2.2.1, hm.2.2.2.2⟩

/-- Witness for C9 at a concrete converter-branch request. -/
theorem c9_converter_query_witness :
    (handleMisubRequest col0 cfg0 [entry1] [profExpired] reqC9).branch = Branch.converter ∧
    ("target", (handleMisubRequest col0 cfg0 [entry1] [profExpired] reqC9).targetFormat) ∈
      (handleMisubRequest col0 cfg0 [entry1] [profExpired] reqC9).converterQuery ∧
    ("new_name", "true") ∈
      (handleMisubRequest col0 cfg0 [entry1] [profExpired] reqC9).converterQuery :=
  ⟨by decide,
    (c9_converter_query col0 cfg0 [entry1] [profExpired] reqC9 (by decide)).1,
    (c9_converter_query col0 cfg0 [entry1] [profExpired] reqC9 (by decide)).2.2.1⟩

/-- C9 counterexample: with an absent effective `subConfig` (profile with no
override) and format `clash`, the outbound query still carries a `config`
parameter, with the literal value `undefined` — refuting "config is set only
when a non-blank config string exists". -/
theorem c9_counterexample :
    (handleMisubRequest col0 cfg0 [entry1] [profExpired] reqC9).branch = Branch.converter ∧
    (handleMisubRequest col0 cfg0 [entry1] [profExpired] reqC9).targetFormat = "clash" ∧
    (handleMisubRequest col0 cfg0 [entry1] [profExpired] reqC9).effectiveSubConfig = none ∧
    ("config", "undefined") ∈
      (handleMisubRequest col0 cfg0 [entry1] [profExpired] reqC9).converterQuery := by
  decide

theorem getParam_cons (p : String × String) (l : List (String × String)) (k : String) :
    getParam (p :: l) k = if p.1 = k then some p.2 else getParam l k := by
  unfold getParam
  by_cases h : p.1 = k
  · simp [List.find?, h]
  · simp [List.find?, h]

theorem hasParam_cons (p : String × String) (l : List (String × String)) (k : String) :
    hasParam (p :: l) k = (decide (p.1 = k) || hasParam l k) := by
  simp [hasParam]

theorem stripCallback_cons (p : String × String) (l : List (String × String)) :
    stripCallbackParam (p :: l) =
      if p.1 ≠ "callback_token" then p :: stripCallbackParam l else stripCallbackParam l := by
  simp [stripCallbackParam, List.filter_cons]

theorem getParam_stripCallback (ps : List (String × String)) (k : String)
    (hk : k ≠ "callback_token") :
    getParam (stripCallbackParam ps) k = getParam ps k := by
  induction ps with
  | nil => rfl
  | cons p rest ih =>
    by_cases hp : p.1 = "callback_token"
    · rw [stripCallback_cons, if_neg (by simp [hp]), ih, getParam_cons,
        if_neg (fun h => hk (h.symm.trans hp))]
    · rw [stripCallback_cons, if_pos hp, getParam_cons, getParam_cons, ih]

theorem hasParam_stripCallback (ps : List (String × String)) (k : String)
    (hk : k ≠ "callback_token") :
    hasParam (stripCallbackParam ps) k = hasParam ps k := by
  induction ps with
  | nil => rfl
  | cons p rest ih =>
    by_cases hp : p.1 = "callback_token"
    · rw [stripCallback_cons, if_neg (by simp [hp]), ih, hasParam_cons]
      have hpk : ¬p.1 = k := fun h => hk (h.symm.trans hp)
      simp [hpk]
    · rw [stripCallback_cons, if_pos hp, hasParam_cons, hasParam_cons, ih]

theorem negotiate_congr (p₁ p₂ : List (String × String)) (ua : String)
    (h : stripCallbackParam p₁ = stripCallbackParam p₂) :
    negotiateTargetFormat p₁ ua = negotiateTargetFormat p₂ ua := by
  have hget : getParam p₁ "target" = getParam p₂ "target" := by
    rw [← getParam_stripCallback p₁ "target" (by decide), h,
      getParam_stripCallback p₂ "target" (by decide)]
  have hhas : ∀ k, k ≠ "callback_token" → hasParam p₁ k = hasParam p₂ k := by
    intro k hk
    rw [← hasParam_stripCallback p₁ k hk, h, hasParam_stripCallback p₂ k hk]
  have hfind : SUPPORTED_FORMATS.find? (fun f => hasParam p₁ f) =
      SUPPORTED_FORMATS.find? (fun f => hasParam p₂ f) := by
    unfold SUPPORTED_FORMATS
    simp only [List.find?]
    rw [hhas "clash" (by decide), hhas "singbox" (by decide), hhas "surge" (by decide),
      hhas "loon" (by decide), hhas "base64" (by decide), hhas "v2ray" (by decide),
      hhas "trojan" (by decide)]
  have hflags : negotiateFromFlags p₁ ua = negotiateFromFlags p₂ ua := by
    unfold negotiateFromFlags
    rw [hfind]
  unfold negotiateTargetFormat
  rw [hget, hflags]

/-- C10: for any two requests identical except for the value or presence of
the `callback_token` query parameter, if the negotiated format is base64
then the locally determined response (status, headers and body) is
identical — the parameter influences only notification scheduling; moreover
the dedicated callback short-circuit branch is never taken when the
negotiated format is base64, so a generated callback URL (which fixes
`target=base64`) is always served by the ordinary base64 branch. -/
theorem c10_callback_token_noninterference (col : Collab) (config : Config)
    (allMisubs : List MisubEntry) (allProfiles : List Profile)
    (req₁ req₂ : Request)
    (hpath : req₁.pathname = req₂.pathname)
    (_hproto : req₁.protocol = req₂.protocol)
    (_hhost : req₁.host = req₂.host)
    (hua : req₁.userAgent = req₂.userAgent)
    (hps : stripCallbackParam req₁.params = stripCallbackParam req₂.params)
    (hb64 : negotiateTargetFormat req₁.params (req₁.userAgent.getD "Unknown") = "base64") :
    (handleMisubRequest col config allMisubs allProfiles req₁).response =
      (handleMisubRequest col config allMisubs allProfiles req₂).response ∧
    (handleMisubRequest col config allMisubs allProfiles req₁).branch ≠
      Branch.shortCircuit ∧
    (handleMisubRequest col config allMisubs allProfiles req₂).branch ≠
      Branch.shortCircuit := by
  have htok : tokenOf req₁ = tokenOf req₂ := by
    unfold tokenOf
    rw [hpath]
    cases pathSegments req₂.pathname with
    | nil =>
      dsimp only
      rw [← getParam_stripCallback req₁.params "token" (by decide), hps,
        getParam_stripCallback req₂.params "token" (by decide)]
    | cons t rest => rfl
  have hpid : profileIdOf req₁ = profileIdOf req₂ := by
    unfold profileIdOf
    rw [hpath]
  have hb64₂ : negotiateTargetFormat req₂.params (req₂.userAgent.getD "Unknown") =
      "base64" := by
    rw [← hua, ← negotiate_congr req₁.params req₂.params _ hps]
    exact hb64
  cases hA : authorizeSelect config allMisubs allProfiles col.now (tokenOf req₁)
      (profileIdOf req₁) with
  | error e =>
    have hA₂ : authorizeSelect config allMisubs allProfiles col.now (tokenOf req₂)
        (profileIdOf req₂) = Except.error e := by
      rw [← htok, ← hpid]
      exact hA
    rw [handle_error col config allMisubs allProfiles req₁ e hA,
      handle_error col config allMisubs allProfiles req₂ e hA₂]
    rcases authorizeSelect_error_branch config allMisubs allProfiles col.now _ _ e hA with
      hb | hb | hb <;> exact ⟨rfl, by simp [errorResult, hb], by simp [errorResult, hb]⟩
  | ok ctx =>
    have hA₂ : authorizeSelect config allMisubs allProfiles col.now (tokenOf req₂)
        (profileIdOf req₂) = Except.ok ctx := by
      rw [← htok, ← hpid]
      exact hA
    rw [handle_ok col config allMisubs allProfiles req₁ ctx hA,
      handle_ok col config allMisubs allProfiles req₂ ctx hA₂]
    by_cases h1 : blankStrOpt ctx.effectiveSubConverter = true
    · rw [handleAuthed_unconfigured _ _ _ _ _ _ _ _ _ _ h1,
        handleAuthed_unconfigured _ _ _ _ _ _ _ _ _ _ h1]
      exact ⟨rfl, by simp [unconfiguredResult], by simp [unconfiguredResult]⟩
    · have h1' : blankStrOpt ctx.effectiveSubConverter = false := by
        simpa using h1
      rw [handleAuthed_base64 _ _ _ _ _ _ _ _ _ _ h1' hb64,
        handleAuthed_base64 _ _ _ _ _ _ _ _ _ _ h1' hb64₂]
      rw [hua, hpid]
      exact ⟨rfl, by simp, by simp⟩

/-- Witness for C10 at a concrete pair of requests differing only in
`callback_token`. -/
theorem c10_callback_token_noninterference_witness :
    reqC10a.pathname = reqC10b.pathname ∧
    stripCallbackParam reqC10a.params = stripCallbackParam reqC10b.params ∧
    negotiateTargetFormat reqC10a.params (reqC10a.userAgent.getD "Unknown") = "base64" ∧
    (handleMisubRequest col0 cfg0 [entry1] [] reqC10a).response =
      (handleMisubRequest col0 cfg0 [entry1] [] reqC10b).response ∧
    (handleMisubRequest col0 cfg0 [entry1] [] reqC10a).branch ≠ Branch.shortCircuit :=
  ⟨rfl, by decide, by decide,
    (c10_callback_token_noninterference col0 cfg0 [entry1] [] reqC10a reqC10b rfl rfl rfl
      rfl (by decide) (by decide)).1,
    (c10_callback_token_noninterference col0 cfg0 [entry1] [] reqC10a reqC10b rfl rfl rfl
      rfl (by decide) (by decide)).2.1⟩

theorem handle_respBody_congr (col : Collab) (config : Config)
    (allMisubs : List MisubEntry) (allProfiles : List Profile) (req₁ req₂ : Request)
    (htok : tokenOf req₁ = tokenOf req₂)
    (hpid : profileIdOf req₁ = profileIdOf req₂)
    (hua : req₁.userAgent = req₂.userAgent)
    (h₁ : negotiateTargetFormat req₁.params (req₁.userAgent.getD "Unknown") = "base64")
    (h₂ : negotiateTargetFormat req₂.params (req₂.userAgent.getD "Unknown") = "base64") :
    respBody (handleMisubRequest col config allMisubs allProfiles req₁) =
      respBody (handleMisubRequest col config allMisubs allProfiles req₂) := by
  cases hA : authorizeSelect config allMisubs allProfiles col.now (tokenOf req₁)
      (profileIdOf req₁) with
  | error e =>
    have hA₂ : authorizeSelect config allMisubs allProfiles col.now (tokenOf req₂)
        (profileIdOf req₂) = Except.error e := by
      rw [← htok, ← hpid]
      exact hA
    rw [handle_error col config allMisubs allProfiles req₁ e hA,
      handle_error col config allMisubs allProfiles req₂ e hA₂]
  | ok ctx =>
    have hA₂ : authorizeSelect config allMisubs allProfiles col.now (tokenOf req₂)
        (profileIdOf req₂) = Except.ok ctx := by
      rw [← htok, ← hpid]
      exact hA
    rw [handle_ok col config allMisubs allProfiles req₁ ctx hA,
      handle_ok col config allMisubs allProfiles req₂ ctx hA₂]
    by_cases h1 : blankStrOpt ctx.effectiveSubConverter = true
    · rw [handleAuthed_unconfigured _ _ _ _ _ _ _ _ _ _ h1,
        handleAuthed_unconfigured _ _ _ _ _ _ _ _ _ _ h1]
    · have h1' : blankStrOpt ctx.effectiveSubConverter = false := by
        simpa using h1
      rw [handleAuthed_base64 _ _ _ _ _ _ _ _ _ _ h1' h₁,
        handleAuthed_base64 _ _ _ _ _ _ _ _ _ _ h1' h₂]
      rw [hua, hpid]
      rfl

/-- C6 (amended): callback round-trip. For a fixed snapshot, token `T` and
optional profile `P`, the request the external converter issues against the
generated callback URL (carrying the correct derived callback token and
`target=base64`) produces a response body byte-identical to a direct
base64-format request resolving to the same token and profile — provided
the callback URL's path re-parses to the same segments as the direct
request's path. This holds whenever `T` and `P` are nonempty, contain no
`/`, and `T` is not the literal string `sub` when `P` is present; with
`T = "sub"` the callback path `/sub/...` has its leading `/sub/` stripped
on re-entry and resolves differently. -/
theorem c6_callback_roundtrip (col : Collab) (config : Config)
    (allMisubs : List MisubEntry) (allProfiles : List Profile)
    (protocol host T : String) (P : Option String) (ua : Option String) (dirPath : String)
    (hparse : pathSegments (callbackPathOf (some T) P) = pathSegments dirPath) :
    respBody (handleMisubRequest col config allMisubs allProfiles
      (callbackRequest protocol host T P col.callbackToken ua)) =
    respBody (handleMisubRequest col config allMisubs allProfiles
      (directB64Request protocol host dirPath ua)) := by
  have h1 : pathSegments (callbackRequest protocol host T P col.callbackToken ua).pathname =
      pathSegments dirPath := hparse
  have h2 : pathSegments (directB64Request protocol host dirPath ua).pathname =
      pathSegments dirPath := rfl
  have htok : tokenOf (callbackRequest protocol host T P col.callbackToken ua) =
      tokenOf (directB64Request protocol host dirPath ua) := by
    unfold tokenOf
    rw [h1, h2]
    cases pathSegments dirPath with
    | nil => simp [callbackRequest, directB64Request, getParam, List.find?]
    | cons t rest => rfl
  have hpid : profileIdOf (callbackRequest protocol host T P col.callbackToken ua) =
      profileIdOf (directB64Request protocol host dirPath ua) := by
    unfold profileIdOf
    rw [h1, h2]
  have hn₁ : negotiateTargetFormat
      (callbackRequest protocol host T P col.callbackToken ua).params
      ((callbackRequest protocol host T P col.callbackToken ua).userAgent.getD "Unknown") =
      "base64" := by
    simp [callbackRequest, negotiateTargetFormat, getParam, List.find?]
  have hn₂ : negotiateTargetFormat (directB64Request protocol host dirPath ua).params
      ((directB64Request protocol host dirPath ua).userAgent.getD "Unknown") = "base64" := by
    simp [directB64Request, negotiateTargetFormat, getParam, List.find?]
  exact handle_respBody_congr col config allMisubs allProfiles _ _ htok hpid rfl hn₁ hn₂

/-- Witness for C6: for token `pt` and profile `promoA` the callback path
re-parses identically and the bodies agree. -/
theorem c6_callback_roundtrip_witness :
    pathSegments (callbackPathOf (some "pt") (some "promoA")) =
      pathSegments "/sub/pt/promoA" ∧
    respBody (handleMisubRequest col0 cfg0 [entry1] [profExpired]
      (callbackRequest "https:" "h" "pt" (some "promoA") col0.callbackToken none)) =
    respBody (handleMisubRequest col0 cfg0 [entry1] [profExpired]
      (directB64Request "https:" "h" "/sub/pt/promoA" none)) :=
  ⟨by decide,
    c6_callback_roundtrip col0 cfg0 [entry1] [profExpired] "https:" "h" "pt"
      (some "promoA") none "/sub/pt/promoA" (by decide)⟩

/-- C6 counterexample: with the configured profile token equal to the
literal string `sub`, the generated callback URL's path `/sub/p` is
re-parsed with its leading `/sub/` stripped, so the callback request
resolves to direct-token mode with token `p` and is answered 403
(`Invalid Token`), while the direct base64 request for the same (token,
profile) pair returns the encoded node list — the claim fails for an
arbitrary token. -/
theorem c6_counterexample :
    respBody (handleMisubRequest col0 cfgSub [entry1] [profActive]
      (callbackRequest "https:" "h" "sub" (some "p") col0.callbackToken none)) =
      some "Invalid Token" ∧
    respBody (handleMisubRequest col0 cfgSub [entry1] [profActive]
      (directB64Request "https:" "h" "/sub/sub/p" none)) =
      some (jsBtoaUtf8 "X") ∧
    respBody (handleMisubRequest col0 cfgSub [entry1] [profActive]
      (callbackRequest "https:" "h" "sub" (some "p") col0.callbackToken none)) ≠
    respBody (handleMisubRequest col0 cfgSub [entry1] [profActive]
      (directB64Request "https:" "h" "/sub/sub/p" none)) := by
  decide
